import Mathlib

/-!
Verification development for the dodoo environment/transaction lifecycle
manager and its command composition contract.

The core components (`CommandWithOdooEnv`, `OdooEnvironment`, the lifecycle
policy and the option resolution) are embedded as executable Lean functions;
the request-scoped middleware stack of the GraphQL server is embedded from
`dodoo-run/dodoo_run/servers/graphql.py`.
-/

/-- Modelled from the spec: the Database Requirement Declaration variants
(`required` / `optional` / `forbidden`, spec section 3), the implementation
of which (`dodoo.options.db_opt` and `CommandWithOdooEnv`) is not among the
provided source files. -/
inductive DbRequirement
  | required
  | optional
  | forbidden
deriving DecidableEq, Repr

/-- The requested transaction outcome of a unit of work. -/
inductive Outcome
  | commit
  | rollback
deriving DecidableEq, Repr

/-- Modelled from the spec: the static per-command declaration
(`CommandWithOdooEnv` with its `env_options`, missing from the sources).
`databaseMustExist` corresponds to the `database_must_exist` entry of
`env_options`, which defaults to true; `test_env_options_database_must_exist`
pins its behavior: with it set to false a required declaration naming a
nonexistent database proceeds with a null handle instead of failing. -/
structure CmdDecl where
  requirement : DbRequirement
  databaseMustExist : Bool := true
deriving DecidableEq, Repr

/-- Modelled from the spec: the raw option set of one invocation
(explicit database name, config-file `db_name`, interactive flag, explicit
rollback flag and the command-level `default_map` entry for rollback). -/
structure OdooOptions where
  explicitDb : Option String
  configDb : Option String
  interactive : Bool
  rollbackFlag : Option Bool
  rollbackDefault : Option Bool
deriving DecidableEq, Repr

/-- Modelled from the spec: the fixed parameter resolution order for the
effective database name — command-line explicit value first, then the
`db_name` entry of the persisted configuration file, then absent
(spec section 3, "Resolution order"). -/
def resolveDbName (explicitDb configDb : Option String) : Option String :=
  match explicitDb with
  | some n => some n
  | none => configDb

/-- Modelled from the spec: the rollback flag resolution — an explicit flag
wins over the command's `default_map` entry, and the flag defaults to
false (commit-on-success is the default for scripts). -/
def resolveRollback (flag dflt : Option Bool) : Bool :=
  match flag with
  | some b => b
  | none =>
    match dflt with
    | some b => b
    | none => false

/-- Modelled from the spec: the Lifecycle Policy decision (spec section 3
and 4.3): an exception forces rollback unconditionally; the interactive
flag forces rollback, overriding everything else; otherwise the caller's
resolved rollback request decides, and the default is commit. -/
def decidePolicy (interactive rollbackRequested exnOccurred : Bool) : Outcome :=
  if exnOccurred then Outcome.rollback
  else if interactive then Outcome.rollback
  else if rollbackRequested then Outcome.rollback
  else Outcome.commit

/-- The observable outcome of one unit of work: process exit code, the
persisted database state afterward, the handle (database name) the caller
work received, and the lifecycle facts the spec talks about. -/
structure RunResult (σ : Type) where
  exitCode : Nat
  persisted : σ
  handle : Option String
  enteredActive : Bool
  connectionOpened : Bool
  finalizationRan : Bool
  errorReported : Bool
  workRaised : Bool
  effectiveDb : Option String
  outcome : Option Outcome
deriving Repr

/-- Modelled from the spec: the `Active`/`Finalizing`/`Released` tail of the
Transaction Lifecycle Manager state machine (spec section 4.3): caller work
runs with the handle (or null) in scope; on normal return the policy decides
commit or rollback; on an exception the policy is rollback unconditionally,
finalization still runs, and the error is reported with a non-zero exit. -/
def finalizeRun {σ : Type} (opts : OdooOptions) (eff handle : Option String)
    (work : Option String → σ → Except String σ) (persisted : σ) : RunResult σ :=
  match work handle persisted with
  | Except.ok s2 =>
    let pol := decidePolicy opts.interactive
      (resolveRollback opts.rollbackFlag opts.rollbackDefault) false
    { exitCode := 0
      persisted := if pol = Outcome.commit then s2 else persisted
      handle := handle
      enteredActive := true
      connectionOpened := handle.isSome
      finalizationRan := true
      errorReported := false
      workRaised := false
      effectiveDb := eff
      outcome := some pol }
  | Except.error _ =>
    { exitCode := 1
      persisted := persisted
      handle := handle
      enteredActive := true
      connectionOpened := handle.isSome
      finalizationRan := true
      errorReported := true
      workRaised := true
      effectiveDb := eff
      outcome := some Outcome.rollback }

/-- A terminal `Failed` record: the unit of work fails before any handle is
acquired and before any storage connection is opened, never entering
`Active`. -/
def failedRun {σ : Type} (eff : Option String) (persisted : σ) : RunResult σ :=
  { exitCode := 2
    persisted := persisted
    handle := none
    enteredActive := false
    connectionOpened := false
    finalizationRan := false
    errorReported := true
    workRaised := false
    effectiveDb := eff
    outcome := none }

/-- Modelled from the spec: one full unit of work under the Command
Composition Contract and the Transaction Lifecycle Manager (spec sections
4.3 and 4.4), whose implementation (`dodoo.CommandWithOdooEnv` /
`dodoo.env_options`) is not among the provided source files; its behavior at
the boundaries is pinned by `tests/test_dodoo.py`.

Pipeline: the effective database name is resolved in the fixed order for
every requirement variant; a `forbidden` declaration exposes no database
option, so an explicit name is a usage error and a config-file `db_name` is
discarded rather than used; a `required` declaration with no resolved name
fails at validation; a resolved name naming a database that does not exist
(or is incompatible, `dbOk`) fails when `databaseMustExist` holds and
otherwise proceeds with a null handle; otherwise a handle bound to the
resolved name is acquired and caller work runs under the lifecycle policy. -/
def runUnitOfWork {σ : Type} (decl : CmdDecl) (dbOk : String → Bool)
    (opts : OdooOptions) (work : Option String → σ → Except String σ)
    (persisted : σ) : RunResult σ :=
  if decl.requirement = DbRequirement.forbidden ∧ opts.explicitDb.isSome then
    failedRun (resolveDbName opts.explicitDb opts.configDb) persisted
  else if decl.requirement = DbRequirement.forbidden then
    finalizeRun opts (resolveDbName opts.explicitDb opts.configDb) none work persisted
  else
    match resolveDbName opts.explicitDb opts.configDb with
    | none =>
      if decl.requirement = DbRequirement.required then
        failedRun none persisted
      else
        finalizeRun opts none none work persisted
    | some n =>
      if dbOk n then
        finalizeRun opts (some n) (some n) work persisted
      else if decl.databaseMustExist then
        failedRun (some n) persisted
      else
        finalizeRun opts (some n) none work persisted

/-- A persisted key-value store standing for the database state observable
through a fresh connection (e.g. the `ir_config_parameter` table). -/
def Store := List (String × String)

/-- Assoc-list lookup in a store. -/
def storeGet (s : Store) (key : String) : Option String :=
  match s with
  | [] => none
  | (k, v) :: rest => if k = key then some v else storeGet rest key

/-- Modelled from the spec: the Environment Handle (spec sections 3 and
4.2), whose implementation (`dodoo.OdooEnvironment`) is not among the
provided source files: one database-bound execution context with a
per-handle object cache, invalidated at handle creation and never shared
across handles, plus the handle's own uncommitted transaction-local
writes. -/
structure Handle where
  dbName : String
  cache : List (String × String)
  pending : List (String × String)
deriving DecidableEq, Repr

/-- Modelled from the spec: handle acquisition — the per-handle cache is
invalidated (empty) at handle creation, and the handle starts with no
uncommitted writes. -/
def Handle.acquire (name : String) : Handle :=
  { dbName := name, cache := [], pending := [] }

/-- Modelled from the spec: a write through the handle (e.g.
`ir.config_parameter.set_param`) lands in the handle's uncommitted
transaction-local view and is memoized in the per-handle cache. -/
def Handle.setParam (h : Handle) (key value : String) : Handle :=
  { h with
    cache := (key, value) :: h.cache
    pending := (key, value) :: h.pending }

/-- Modelled from the spec: a lookup through the handle (e.g.
`ir.config_parameter.get_param`) consults this handle's private cache
first, then the persisted store, and memoizes what it found within this
handle's cache only. -/
def Handle.getParam (h : Handle) (persisted : Store) (key : String) :
    Option String × Handle :=
  match storeGet h.cache key with
  | some v => (some v, h)
  | none =>
    match storeGet persisted key with
    | some v => (some v, { h with cache := (key, v) :: h.cache })
    | none => (none, h)

/-- The middleware stack entries of the GraphQL server, from
`dodoo-run/dodoo_run/servers/graphql.py`. -/
inductive MiddlewareKind
  | httpsRedirect
  | session
  | authentication
  | odooEnvironment
  | prometheus
deriving DecidableEq, Repr

/-- The request-scoped middleware stack assembled by `middleware(prod)` in
`dodoo-run/dodoo_run/servers/graphql.py`: HTTPS redirect, session,
authentication (Odoo basic-auth backend), Odoo environment, and — only in
prod — Prometheus metrics. -/
def middleware (prod : Bool) : List MiddlewareKind :=
  [MiddlewareKind.httpsRedirect, MiddlewareKind.session,
    MiddlewareKind.authentication, MiddlewareKind.odooEnvironment]
    ++ (if prod then [MiddlewareKind.prometheus] else [])

lemma finalizeRun_handle {σ : Type} (opts : OdooOptions) (eff h : Option String)
    (work : Option String → σ → Except String σ) (p : σ) :
    (finalizeRun opts eff h work p).handle = h := by
  unfold finalizeRun
  rcases work h p with s2 | e <;> rfl

lemma finalizeRun_effectiveDb {σ : Type} (opts : OdooOptions) (eff h : Option String)
    (work : Option String → σ → Except String σ) (p : σ) :
    (finalizeRun opts eff h work p).effectiveDb = eff := by
  unfold finalizeRun
  rcases work h p with s2 | e <;> rfl

/-- Every unit of work either fails at validation (`failedRun`) or reaches
`Active` and is finalized (`finalizeRun`) with some handle, with the
effective database name resolved in the fixed order in either case. -/
lemma run_cases {σ : Type} (decl : CmdDecl) (dbOk : String → Bool)
    (opts : OdooOptions) (work : Option String → σ → Except String σ)
    (persisted : σ) :
    runUnitOfWork decl dbOk opts work persisted =
        failedRun (resolveDbName opts.explicitDb opts.configDb) persisted ∨
    ∃ h, runUnitOfWork decl dbOk opts work persisted =
        finalizeRun opts (resolveDbName opts.explicitDb opts.configDb) h work persisted := by
  rcases heff : resolveDbName opts.explicitDb opts.configDb with _ | n <;>
    simp only [runUnitOfWork, heff] <;>
    repeat' split
  all_goals first
    | exact Or.inl rfl
    | exact Or.inr ⟨none, rfl⟩
    | exact Or.inr ⟨_, rfl⟩

/-- Claim C1: whenever the caller-supplied work raises, regardless of the
rollback flag and all other options, no persisted state change from that
unit of work is visible afterward (the exception forces rollback),
finalization still runs, the process exits non-zero and the error is
reported rather than swallowed. -/
theorem raise_forces_rollback {σ : Type} (decl : CmdDecl) (dbOk : String → Bool)
    (opts : OdooOptions) (work : Option String → σ → Except String σ)
    (persisted : σ)
    (hraise : (runUnitOfWork decl dbOk opts work persisted).workRaised = true) :
    (runUnitOfWork decl dbOk opts work persisted).persisted = persisted ∧
    (runUnitOfWork decl dbOk opts work persisted).finalizationRan = true ∧
    (runUnitOfWork decl dbOk opts work persisted).exitCode ≠ 0 ∧
    (runUnitOfWork decl dbOk opts work persisted).errorReported = true ∧
    (runUnitOfWork decl dbOk opts work persisted).outcome = some Outcome.rollback := by
  rcases run_cases decl dbOk opts work persisted with heq | ⟨h, heq⟩
  · rw [heq] at hraise
    simp [failedRun] at hraise
  · rw [heq] at hraise ⊢
    rcases hw : work h persisted with e | s2
    · simp [finalizeRun, hw]
    · simp [finalizeRun, hw] at hraise

/-- Claim C1 witness: a required unit of work whose script raises
`testerror` with no rollback flag: the database state is unchanged,
finalization ran, the exit code is non-zero and the error is reported. -/
theorem raise_forces_rollback_witness :
    (runUnitOfWork ⟨DbRequirement.required, true⟩ (fun _ => true)
      ⟨some "testdb", none, false, none, none⟩
      (fun _ _ => Except.error "testerror") (0 : Nat)).persisted = 0 ∧
    (runUnitOfWork ⟨DbRequirement.required, true⟩ (fun _ => true)
      ⟨some "testdb", none, false, none, none⟩
      (fun _ _ => Except.error "testerror") (0 : Nat)).finalizationRan = true ∧
    (runUnitOfWork ⟨DbRequirement.required, true⟩ (fun _ => true)
      ⟨some "testdb", none, false, none, none⟩
      (fun _ _ => Except.error "testerror") (0 : Nat)).exitCode ≠ 0 ∧
    (runUnitOfWork ⟨DbRequirement.required, true⟩ (fun _ => true)
      ⟨some "testdb", none, false, none, none⟩
      (fun _ _ => Except.error "testerror") (0 : Nat)).errorReported = true ∧
    (runUnitOfWork ⟨DbRequirement.required, true⟩ (fun _ => true)
      ⟨some "testdb", none, false, none, none⟩
      (fun _ _ => Except.error "testerror") (0 : Nat)).outcome
        = some Outcome.rollback :=
  raise_forces_rollback _ _ _ _ _ (by rfl)

/-- Claim C2: an interactive unit of work never persists anything,
regardless of the rollback flag and of whether the work succeeds: the
interactive flag forces rollback, overriding every other policy input
including an explicit commit request (`rollbackFlag := some false`). -/
theorem interactive_forces_rollback {σ : Type} (decl : CmdDecl)
    (dbOk : String → Bool) (opts : OdooOptions)
    (work : Option String → σ → Except String σ) (persisted : σ)
    (hint : opts.interactive = true) :
    (runUnitOfWork decl dbOk opts work persisted).persisted = persisted ∧
    (runUnitOfWork decl dbOk opts work persisted).outcome ≠ some Outcome.commit := by
  rcases run_cases decl dbOk opts work persisted with heq | ⟨h, heq⟩ <;> rw [heq]
  · simp [failedRun]
  · rcases hw : work h persisted with s2 | e <;>
      simp [finalizeRun, hw, decidePolicy, hint]

/-- Claim C2 witness: an interactive unit of work whose script succeeds
and explicitly requests commit (`rollbackFlag := some false`) still leaves
the database state unchanged and does not commit. -/
theorem interactive_forces_rollback_witness :
    (runUnitOfWork ⟨DbRequirement.required, true⟩ (fun _ => true)
      ⟨some "testdb", none, true, some false, none⟩
      (fun _ s => Except.ok (s + 1)) (0 : Nat)).persisted = 0 ∧
    (runUnitOfWork ⟨DbRequirement.required, true⟩ (fun _ => true)
      ⟨some "testdb", none, true, some false, none⟩
      (fun _ s => Except.ok (s + 1)) (0 : Nat)).outcome
        ≠ some Outcome.commit :=
  interactive_forces_rollback _ _ _ _ _ (by rfl)

/-- Claim C3: a non-interactive unit of work that returns normally commits
exactly when rollback was not requested (by the explicit flag or by the
command's `default_map`): without a rollback request the work's new state
is persisted; with one the changes are discarded. -/
theorem normal_return_commit_iff {σ : Type} (decl : CmdDecl)
    (dbOk : String → Bool) (opts : OdooOptions)
    (work : Option String → σ → Except String σ) (persisted s2 : σ)
    (hint : opts.interactive = false)
    (hact : (runUnitOfWork decl dbOk opts work persisted).enteredActive = true)
    (hok : work (runUnitOfWork decl dbOk opts work persisted).handle persisted
      = Except.ok s2) :
    (runUnitOfWork decl dbOk opts work persisted).exitCode = 0 ∧
    (runUnitOfWork decl dbOk opts work persisted).persisted =
      (if resolveRollback opts.rollbackFlag opts.rollbackDefault
        then persisted else s2) ∧
    (runUnitOfWork decl dbOk opts work persisted).outcome =
      some (if resolveRollback opts.rollbackFlag opts.rollbackDefault
        then Outcome.rollback else Outcome.commit) := by
  rcases run_cases decl dbOk opts work persisted with heq | ⟨h, heq⟩ <;>
    rw [heq] at hact hok ⊢
  · simp [failedRun] at hact
  · rw [finalizeRun_handle] at hok
    cases hrb : resolveRollback opts.rollbackFlag opts.rollbackDefault <;>
      simp [finalizeRun, hok, decidePolicy, hint, hrb]

/-- Claim C3 witness: with no rollback request the new state is persisted
(commit), and with a `default_map` rollback request it is discarded. -/
theorem normal_return_commit_iff_witness :
    ((runUnitOfWork ⟨DbRequirement.required, true⟩ (fun _ => true)
      ⟨some "testdb", none, false, none, none⟩
      (fun _ s => Except.ok (s + 1)) (0 : Nat)).exitCode = 0 ∧
    (runUnitOfWork ⟨DbRequirement.required, true⟩ (fun _ => true)
      ⟨some "testdb", none, false, none, none⟩
      (fun _ s => Except.ok (s + 1)) (0 : Nat)).persisted =
        (if resolveRollback none none then (0 : Nat) else 1) ∧
    (runUnitOfWork ⟨DbRequirement.required, true⟩ (fun _ => true)
      ⟨some "testdb", none, false, none, none⟩
      (fun _ s => Except.ok (s + 1)) (0 : Nat)).outcome =
        some (if resolveRollback none none
          then Outcome.rollback else Outcome.commit)) ∧
    ((runUnitOfWork ⟨DbRequirement.required, true⟩ (fun _ => true)
      ⟨some "testdb", none, false, none, some true⟩
      (fun _ s => Except.ok (s + 1)) (0 : Nat)).exitCode = 0 ∧
    (runUnitOfWork ⟨DbRequirement.required, true⟩ (fun _ => true)
      ⟨some "testdb", none, false, none, some true⟩
      (fun _ s => Except.ok (s + 1)) (0 : Nat)).persisted =
        (if resolveRollback none (some true) then (0 : Nat) else 1) ∧
    (runUnitOfWork ⟨DbRequirement.required, true⟩ (fun _ => true)
      ⟨some "testdb", none, false, none, some true⟩
      (fun _ s => Except.ok (s + 1)) (0 : Nat)).outcome =
        some (if resolveRollback none (some true)
          then Outcome.rollback else Outcome.commit)) :=
  ⟨normal_return_commit_iff _ _ _ _ _ 1 (by rfl) (by rfl) (by rfl),
    normal_return_commit_iff _ _ _ _ _ 1 (by rfl) (by rfl) (by rfl)⟩

/-- Claim C4 counterexample: a unit of work declared `required` but with
`database_must_exist` set to false (as in
`test_env_options_database_must_exist`), invoked with the explicit name
`dbthatdoesnotexist` of a nonexistent database, does not fail: it enters
`Active` with a null handle and exits zero, contradicting the claim that
every `required` declaration fails on a nonexistent database. -/
theorem required_not_exist_counterexample :
    (runUnitOfWork ⟨DbRequirement.required, false⟩ (fun _ => false)
      ⟨some "dbthatdoesnotexist", none, false, none, none⟩
      (fun _ s => Except.ok s) (0 : Nat)).exitCode = 0 ∧
    (runUnitOfWork ⟨DbRequirement.required, false⟩ (fun _ => false)
      ⟨some "dbthatdoesnotexist", none, false, none, none⟩
      (fun _ s => Except.ok s) (0 : Nat)).enteredActive = true ∧
    (runUnitOfWork ⟨DbRequirement.required, false⟩ (fun _ => false)
      ⟨some "dbthatdoesnotexist", none, false, none, none⟩
      (fun _ s => Except.ok s) (0 : Nat)).handle = none := by
  refine ⟨rfl, rfl, rfl⟩

/-- Claim C4 (amended): for a `required` declaration whose
`database_must_exist` policy is at its default (true), if no database name
resolves or the resolved name names a nonexistent or incompatible
database, the unit of work fails with a non-zero outcome before any handle
is acquired and before any storage connection is opened, never entering
`Active`. -/
theorem required_must_exist_fails {σ : Type} (decl : CmdDecl)
    (dbOk : String → Bool) (opts : OdooOptions)
    (work : Option String → σ → Except String σ) (persisted : σ)
    (hreq : decl.requirement = DbRequirement.required)
    (hmust : decl.databaseMustExist = true)
    (hdb : ∀ n, resolveDbName opts.explicitDb opts.configDb = some n →
      dbOk n = false) :
    (runUnitOfWork decl dbOk opts work persisted).exitCode ≠ 0 ∧
    (runUnitOfWork decl dbOk opts work persisted).handle = none ∧
    (runUnitOfWork decl dbOk opts work persisted).connectionOpened = false ∧
    (runUnitOfWork decl dbOk opts work persisted).enteredActive = false ∧
    (runUnitOfWork decl dbOk opts work persisted).persisted = persisted := by
  rcases heff : resolveDbName opts.explicitDb opts.configDb with _ | n
  · simp [runUnitOfWork, heff, hreq, failedRun]
  · have hdbn := hdb n heff
    simp [runUnitOfWork, heff, hreq, hmust, hdbn, failedRun]

/-- Claim C4 witness: a default `required` declaration with no database
name from any source fails before acquiring anything; the same declaration
with an explicit name of a nonexistent database fails likewise. -/
theorem required_must_exist_fails_witness :
    ((runUnitOfWork ⟨DbRequirement.required, true⟩ (fun _ => false)
      ⟨none, none, false, none, none⟩
      (fun _ s => Except.ok s) (0 : Nat)).exitCode ≠ 0 ∧
    (runUnitOfWork ⟨DbRequirement.required, true⟩ (fun _ => false)
      ⟨none, none, false, none, none⟩
      (fun _ s => Except.ok s) (0 : Nat)).handle = none ∧
    (runUnitOfWork ⟨DbRequirement.required, true⟩ (fun _ => false)
      ⟨none, none, false, none, none⟩
      (fun _ s => Except.ok s) (0 : Nat)).connectionOpened = false ∧
    (runUnitOfWork ⟨DbRequirement.required, true⟩ (fun _ => false)
      ⟨none, none, false, none, none⟩
      (fun _ s => Except.ok s) (0 : Nat)).enteredActive = false ∧
    (runUnitOfWork ⟨DbRequirement.required, true⟩ (fun _ => false)
      ⟨none, none, false, none, none⟩
      (fun _ s => Except.ok s) (0 : Nat)).persisted = 0) ∧
    ((runUnitOfWork ⟨DbRequirement.required, true⟩ (fun _ => false)
      ⟨some "dbthatdoesnotexist", none, false, none, none⟩
      (fun _ s => Except.ok s) (0 : Nat)).exitCode ≠ 0 ∧
    (runUnitOfWork ⟨DbRequirement.required, true⟩ (fun _ => false)
      ⟨some "dbthatdoesnotexist", none, false, none, none⟩
      (fun _ s => Except.ok s) (0 : Nat)).handle = none ∧
    (runUnitOfWork ⟨DbRequirement.required, true⟩ (fun _ => false)
      ⟨some "dbthatdoesnotexist", none, false, none, none⟩
      (fun _ s => Except.ok s) (0 : Nat)).connectionOpened = false ∧
    (runUnitOfWork ⟨DbRequirement.required, true⟩ (fun _ => false)
      ⟨some "dbthatdoesnotexist", none, false, none, none⟩
      (fun _ s => Except.ok s) (0 : Nat)).enteredActive = false ∧
    (runUnitOfWork ⟨DbRequirement.required, true⟩ (fun _ => false)
      ⟨some "dbthatdoesnotexist", none, false, none, none⟩
      (fun _ s => Except.ok s) (0 : Nat)).persisted = 0) :=
  ⟨required_must_exist_fails _ _ _ _ _ rfl rfl
      (fun n hn => by simp [resolveDbName] at hn),
    required_must_exist_fails _ _ _ _ _ rfl rfl
      (fun n hn => by simp [resolveDbName] at hn; simp [hn.symm])⟩

/-- Claim C5: a `forbidden` declaration given an explicit database name
fails validation immediately with a non-zero outcome, before any handle is
acquired and before any database I/O (no storage connection is opened and
`Active` is never entered). -/
theorem forbidden_explicit_fails {σ : Type} (decl : CmdDecl)
    (dbOk : String → Bool) (opts : OdooOptions)
    (work : Option String → σ → Except String σ) (persisted : σ) (n : String)
    (hreq : decl.requirement = DbRequirement.forbidden)
    (hex : opts.explicitDb = some n) :
    (runUnitOfWork decl dbOk opts work persisted).exitCode ≠ 0 ∧
    (runUnitOfWork decl dbOk opts work persisted).handle = none ∧
    (runUnitOfWork decl dbOk opts work persisted).connectionOpened = false ∧
    (runUnitOfWork decl dbOk opts work persisted).enteredActive = false := by
  simp [runUnitOfWork, hreq, hex, failedRun]

/-- Claim C5 witness: a `forbidden` command invoked with an explicit
database name fails with no handle, no connection and no `Active` state. -/
theorem forbidden_explicit_fails_witness :
    (runUnitOfWork ⟨DbRequirement.forbidden, true⟩ (fun _ => true)
      ⟨some "testdb", none, false, none, none⟩
      (fun _ s => Except.ok s) (0 : Nat)).exitCode ≠ 0 ∧
    (runUnitOfWork ⟨DbRequirement.forbidden, true⟩ (fun _ => true)
      ⟨some "testdb", none, false, none, none⟩
      (fun _ s => Except.ok s) (0 : Nat)).handle = none ∧
    (runUnitOfWork ⟨DbRequirement.forbidden, true⟩ (fun _ => true)
      ⟨some "testdb", none, false, none, none⟩
      (fun _ s => Except.ok s) (0 : Nat)).connectionOpened = false ∧
    (runUnitOfWork ⟨DbRequirement.forbidden, true⟩ (fun _ => true)
      ⟨some "testdb", none, false, none, none⟩
      (fun _ s => Except.ok s) (0 : Nat)).enteredActive = false :=
  forbidden_explicit_fails _ _ _ _ _ "testdb" rfl rfl

/-- Claim C6: an `optional` declaration for which no database name
resolves from any source enters `Active` with a null handle and, when the
caller work returns normally, completes successfully with exit code zero —
the absence of a database alone never raises. -/
theorem optional_absent_null_handle {σ : Type} (decl : CmdDecl)
    (dbOk : String → Bool) (opts : OdooOptions)
    (work : Option String → σ → Except String σ) (persisted s2 : σ)
    (hreq : decl.requirement = DbRequirement.optional)
    (heff : resolveDbName opts.explicitDb opts.configDb = none)
    (hok : work none persisted = Except.ok s2) :
    (runUnitOfWork decl dbOk opts work persisted).enteredActive = true ∧
    (runUnitOfWork decl dbOk opts work persisted).handle = none ∧
    (runUnitOfWork decl dbOk opts work persisted).exitCode = 0 ∧
    (runUnitOfWork decl dbOk opts work persisted).errorReported = false := by
  simp [runUnitOfWork, hreq, heff, finalizeRun, hok]

/-- Claim C6 witness: an `optional` command with no database from any
source runs its work with a null handle and exits zero. -/
theorem optional_absent_null_handle_witness :
    (runUnitOfWork ⟨DbRequirement.optional, true⟩ (fun _ => true)
      ⟨none, none, false, none, none⟩
      (fun _ s => Except.ok s) (0 : Nat)).enteredActive = true ∧
    (runUnitOfWork ⟨DbRequirement.optional, true⟩ (fun _ => true)
      ⟨none, none, false, none, none⟩
      (fun _ s => Except.ok s) (0 : Nat)).handle = none ∧
    (runUnitOfWork ⟨DbRequirement.optional, true⟩ (fun _ => true)
      ⟨none, none, false, none, none⟩
      (fun _ s => Except.ok s) (0 : Nat)).exitCode = 0 ∧
    (runUnitOfWork ⟨DbRequirement.optional, true⟩ (fun _ => true)
      ⟨none, none, false, none, none⟩
      (fun _ s => Except.ok s) (0 : Nat)).errorReported = false :=
  optional_absent_null_handle _ _ _ _ _ 0 rfl rfl rfl

/-- Claim C7: the effective database name is resolved in the fixed order
explicit command-line value, then config-file `db_name`, then absent, for
every requirement variant: when an explicit name `a` and a config-file
name `b` are both supplied with `a ≠ b`, the effective name recorded by
the unit of work is `a` and not `b`, whatever the declaration. -/
theorem resolution_order_fixed {σ : Type} (decl : CmdDecl)
    (dbOk : String → Bool) (opts : OdooOptions)
    (work : Option String → σ → Except String σ) (persisted : σ)
    (a b : String)
    (ha : opts.explicitDb = some a) (hb : opts.configDb = some b)
    (hab : a ≠ b) :
    (runUnitOfWork decl dbOk opts work persisted).effectiveDb = some a ∧
    (runUnitOfWork decl dbOk opts work persisted).effectiveDb ≠ some b := by
  have heff : resolveDbName opts.explicitDb opts.configDb = some a := by
    rw [ha]
    rfl
  rcases run_cases decl dbOk opts work persisted with heq | ⟨h, heq⟩ <;> rw [heq]
  · rw [heff]
    simp [failedRun, hab]
  · rw [finalizeRun_effectiveDb, heff]
    simp [hab]

/-- Claim C7 witness: with explicit name `odoodb` and config name
`notadb`, the effective database name is `odoodb` for a required command. -/
theorem resolution_order_fixed_witness :
    (runUnitOfWork ⟨DbRequirement.required, true⟩ (fun _ => true)
      ⟨some "odoodb", some "notadb", false, none, none⟩
      (fun _ s => Except.ok s) (0 : Nat)).effectiveDb = some "odoodb" ∧
    (runUnitOfWork ⟨DbRequirement.required, true⟩ (fun _ => true)
      ⟨some "odoodb", some "notadb", false, none, none⟩
      (fun _ s => Except.ok s) (0 : Nat)).effectiveDb ≠ some "notadb" :=
  resolution_order_fixed _ _ _ _ _ "odoodb" "notadb" rfl rfl (by decide)

/-- Claim C8: the per-handle object cache is never shared between two
Environment Handles, even on the same database: a previous handle may hold
an uncommitted value for a key in its cache, but a lookup through a
freshly acquired handle consults only its own (empty) cache and the
persisted store, so it returns none rather than the cached value; within
the writing handle itself the cached value is still read back. -/
theorem env_cache_not_shared (h1 : Handle) (db key v : String)
    (persisted : Store)
    (hcached : storeGet h1.cache key = some v)
    (hnotcommitted : storeGet persisted key = none) :
    ((Handle.acquire db).getParam persisted key).fst = none ∧
    ((Handle.acquire db).getParam persisted key).fst ≠ some v ∧
    (((Handle.acquire h1.dbName).setParam key v).getParam
      persisted key).fst = some v := by
  refine ⟨?_, ?_, ?_⟩ <;>
    simp [Handle.getParam, Handle.acquire, Handle.setParam, storeGet,
      hnotcommitted]

/-- Claim C8 witness: a first handle writes `testparam=testvalue`
(uncommitted, so the persisted store is empty); a second, freshly acquired
handle on the same database looks `testparam` up and sees nothing. -/
theorem env_cache_not_shared_witness :
    (((Handle.acquire "testdb").getParam [] "testparam").fst = none ∧
    ((Handle.acquire "testdb").getParam [] "testparam").fst
      ≠ some "testvalue" ∧
    (((Handle.acquire
        ((Handle.acquire "testdb").setParam "testparam" "testvalue").dbName
      ).setParam "testparam" "testvalue").getParam [] "testparam").fst
      = some "testvalue") :=
  env_cache_not_shared
    ((Handle.acquire "testdb").setParam "testparam" "testvalue")
    "testdb" "testparam" "testvalue" [] (by rfl) (by rfl)

/-- Claim C9: in the middleware stack assembled by `middleware(prod)` of
the GraphQL server, for every value of `prod`, the authentication
middleware precedes the Odoo environment middleware, and the HTTPS
redirect middleware precedes both, so identity is resolved before handle
acquisition and transport-layer security handling precedes both. -/
theorem middleware_auth_before_env (prod : Bool) :
    (middleware prod).indexOf MiddlewareKind.authentication <
      (middleware prod).indexOf MiddlewareKind.odooEnvironment ∧
    (middleware prod).indexOf MiddlewareKind.httpsRedirect <
      (middleware prod).indexOf MiddlewareKind.authentication ∧
    (middleware prod).indexOf MiddlewareKind.httpsRedirect <
      (middleware prod).indexOf MiddlewareKind.odooEnvironment := by
  cases prod <;> exact ⟨by decide, by decide, by decide⟩

/-- Claim C10: a `forbidden` declaration invoked with no explicit database
name but a `db_name` entry in the configuration file silently ignores that
entry: the unit of work succeeds with exit code zero, no handle is
acquired and no storage connection is opened. -/
theorem forbidden_config_ignored {σ : Type} (decl : CmdDecl)
    (dbOk : String → Bool) (opts : OdooOptions)
    (work : Option String → σ → Except String σ) (persisted s2 : σ)
    (b : String)
    (hreq : decl.requirement = DbRequirement.forbidden)
    (hex : opts.explicitDb = none)
    (hcfg : opts.configDb = some b)
    (hok : work none persisted = Except.ok s2) :
    (runUnitOfWork decl dbOk opts work persisted).exitCode = 0 ∧
    (runUnitOfWork decl dbOk opts work persisted).handle = none ∧
    (runUnitOfWork decl dbOk opts work persisted).connectionOpened = false ∧
    (runUnitOfWork decl dbOk opts work persisted).errorReported = false := by
  simp [runUnitOfWork, hreq, hex, finalizeRun, hok]

/-- Claim C10 witness: a `forbidden` command invoked with only a config
file whose `db_name` names an existing database exits zero with no
handle. -/
theorem forbidden_config_ignored_witness :
    (runUnitOfWork ⟨DbRequirement.forbidden, true⟩ (fun _ => true)
      ⟨none, some "odoodb", false, none, none⟩
      (fun _ s => Except.ok s) (0 : Nat)).exitCode = 0 ∧
    (runUnitOfWork ⟨DbRequirement.forbidden, true⟩ (fun _ => true)
      ⟨none, some "odoodb", false, none, none⟩
      (fun _ s => Except.ok s) (0 : Nat)).handle = none ∧
    (runUnitOfWork ⟨DbRequirement.forbidden, true⟩ (fun _ => true)
      ⟨none, some "odoodb", false, none, none⟩
      (fun _ s => Except.ok s) (0 : Nat)).connectionOpened = false ∧
    (runUnitOfWork ⟨DbRequirement.forbidden, true⟩ (fun _ => true)
      ⟨none, some "odoodb", false, none, none⟩
      (fun _ s => Except.ok s) (0 : Nat)).errorReported = false :=
  forbidden_config_ignored _ _ _ _ _ 0 "odoodb" rfl rfl rfl rfl
